import Mathlib

/-!
Verification of the Food Ordering API backend (src/main.py, src/schemas.py).

The service is a thin HTTP layer over a document store (MongoDB via pymongo).
We embed it shallowly:

* The store is a value of type `Store`: one list of documents per collection
  (`restaurant`, `menuitem`, `order`) plus a counter `nextId` modelling the
  store-native identity generator (ObjectIds are monotonically increasing,
  and every insert draws a fresh one).
* Store-native identities (bson ObjectIds) are opaque values with a string
  rendering and a format check.  We model them as naturals with an injective
  rendering `oidToString` and a parse `parseOid` that fails exactly on
  strings outside the format — standing in for ObjectId's 24-hex-char
  format, whose precise alphabet is irrelevant to the handlers.
* Python floats carrying prices are modelled as rationals; `round(x, 2)`
  becomes `round2`.  (Python rounds ties to even; no property below depends
  on tie behaviour, and all concrete values in play are exact 2-decimal
  quantities.)
* A handler that can raise `HTTPException` returns an `ApiResult`; the
  `try/except` wrapper that turns any exception into a 500 response with the
  exception text becomes the `ApiResult.error 500 msg` constructor.
* Handlers that write to the store return the new store next to the result;
  a handler that fails before its insert returns the store unchanged.
-/

namespace FoodApi

/-- JSON-like values stored in documents and returned over the wire. -/
inductive Value where
  | vstr (s : String)
  | vint (n : Int)
  | vrat (q : ℚ)
  | vbool (b : Bool)
  | vnull
  | oid (n : Nat)
  | vlist (l : List Value)
  | vobj (l : List (String × Value))

/-- A document is an ordered association of field names to values,
modelling a Python dict / bson document. -/
abbrev Doc : Type := List (String × Value)

/-- Rendering of a store-native identity to a string: `str(object_id)` in the
source.  The store's identities are opaque; we model the rendering as an
injective encoding whose image is the "identity format". -/
def oidToString (n : Nat) : String := String.mk (List.replicate n 'x')

/-- Parsing a string as a store-native identity: `ObjectId(s)` in the source,
which raises on any string not matching the identity format.  `none` models
the raised `InvalidId` exception. -/
def parseOid (s : String) : Option Nat :=
  if s.data.all (fun c => c == 'x') then some s.data.length else none

/-- `round(x, 2)` from the source: round to 2 decimal places. -/
def round2 (q : ℚ) : ℚ := (⌊q * 100 + 1 / 2⌋ : ℚ) / 100

/-- Lookup in an association list built like a Python dict comprehension:
a later binding of the same key shadows an earlier one. -/
def dictFind (m : List (String × ℚ)) (k : String) : Option ℚ :=
  match m with
  | [] => none
  | kv :: rest =>
    match dictFind rest k with
    | some v => some v
    | none => if kv.1 = k then some kv.2 else none

/-- `dict.get(k, dflt)` over the last-binding-wins association list. -/
def dictGet (m : List (String × ℚ)) (k : String) (dflt : ℚ) : ℚ :=
  (dictFind m k).getD dflt

/-- A stored restaurant document (fields as inserted by `seed`). -/
structure RestaurantDoc where
  _id : Nat
  name : String
  cuisine : String
  image_url : Option String
  rating : ℚ
  delivery_time_min : Int
deriving DecidableEq

/-- A stored menu item document.  `price` is optional because the handler
reads it with `doc.get("price", 0)`. -/
structure MenuitemDoc where
  _id : Nat
  restaurant_id : String
  name : String
  description : Option String
  price : Option ℚ
  is_veg : Bool
  spicy_level : Int
  image_url : Option String
deriving DecidableEq

/-- One line of a persisted order: the per-line snapshot
`{"menuitem_id": ..., "quantity": ..., "price": ...}` built by `place_order`. -/
structure OrderLine where
  menuitem_id : String
  quantity : Int
  price : ℚ
deriving DecidableEq

/-- A stored order document, as inserted by `place_order`. -/
structure OrderDoc where
  _id : Nat
  restaurant_id : String
  items : List OrderLine
  customer_name : String
  address : String
  phone : String
  notes : Option String
  status : String
  total : ℚ
deriving DecidableEq

/-- The document store: one collection per entity plus the identity
generator.  Identities handed out by inserts are `nextId`, `nextId + 1`, …,
modelling the store's monotonically increasing native identities. -/
structure Store where
  restaurant : List RestaurantDoc
  menuitem : List MenuitemDoc
  order : List OrderDoc
  nextId : Nat
deriving DecidableEq

/-- Outcome of a handler: a successful JSON response, or an
`HTTPException(status_code, detail)`. -/
inductive ApiResult (α : Type) where
  | ok (val : α)
  | error (status : Nat) (detail : String)
deriving DecidableEq

/-- Body of the `CartItem` request model: `menuitem_id: str, quantity: int`.
Quantity is an unconstrained integer — the model applies no positivity
check. -/
structure CartItem where
  menuitem_id : String
  quantity : Int
deriving DecidableEq

/-- Body of the `PlaceOrderRequest` request model. -/
structure PlaceOrderRequest where
  restaurant_id : String
  items : List CartItem
  customer_name : String
  address : String
  phone : String
  notes : Option String := none
deriving DecidableEq

/-- Response of `POST /orders`: `{"id": ..., "total": ..., "status": ...}`. -/
structure OrderResponse where
  id : String
  total : ℚ
  status : String
deriving DecidableEq

/-- Response of `POST /seed`: `{"status": "ok"}`. -/
structure SeedAck where
  status : String
deriving DecidableEq

/-- The list comprehension `[ObjectId(mid) for mid in menu_ids]` at
src/main.py:108: parse every requested identity, raising (here: returning
`Except.error` with the underlying message) at the first malformed one. -/
def parse_menu_ids : List String → Except String (List Nat)
  | [] => Except.ok []
  | s :: rest =>
    match parseOid s with
    | none => Except.error (s ++ " is not a valid ObjectId")
    | some n =>
      match parse_menu_ids rest with
      | Except.error e => Except.error e
      | Except.ok ns => Except.ok (n :: ns)

/-- `serialize_doc` from src/main.py:22-30: if the document's `_id` is a
store-native identity, replace it by a plain string field `id`. -/
def serialize_doc (d : Doc) : Doc :=
  match List.lookup "_id" d with
  | some (Value.oid n) =>
    List.filter (fun kv => kv.1 != "_id") d ++ [("id", Value.vstr (oidToString n))]
  | _ => d

/-- Rendering of an optional string field as stored (None becomes null). -/
def optStr : Option String → Value
  | none => Value.vnull
  | some s => Value.vstr s

/-- The stored form of a restaurant document. -/
def restaurantToDoc (r : RestaurantDoc) : Doc :=
  [("_id", Value.oid r._id), ("name", Value.vstr r.name),
   ("cuisine", Value.vstr r.cuisine), ("image_url", optStr r.image_url),
   ("rating", Value.vrat r.rating),
   ("delivery_time_min", Value.vint r.delivery_time_min)]

/-- The stored form of a menu item document. -/
def menuitemToDoc (m : MenuitemDoc) : Doc :=
  [("_id", Value.oid m._id), ("restaurant_id", Value.vstr m.restaurant_id),
   ("name", Value.vstr m.name), ("description", optStr m.description),
   ("price", match m.price with | some q => Value.vrat q | none => Value.vnull),
   ("is_veg", Value.vbool m.is_veg), ("spicy_level", Value.vint m.spicy_level),
   ("image_url", optStr m.image_url)]

/-- The stored form of an order document. -/
def orderToDoc (o : OrderDoc) : Doc :=
  [("_id", Value.oid o._id), ("restaurant_id", Value.vstr o.restaurant_id),
   ("items", Value.vlist (o.items.map (fun it =>
      Value.vobj [("menuitem_id", Value.vstr it.menuitem_id),
                  ("quantity", Value.vint it.quantity),
                  ("price", Value.vrat it.price)]))),
   ("customer_name", Value.vstr o.customer_name),
   ("address", Value.vstr o.address), ("phone", Value.vstr o.phone),
   ("notes", optStr o.notes), ("status", Value.vstr o.status),
   ("total", Value.vrat o.total)]

/-- `POST /seed` (src/main.py:34-64): if the restaurant collection is empty,
insert two fixed restaurants and four fixed menu items, each menu item's
`restaurant_id` set to the string form of the identity generated for its
restaurant in this call; otherwise do nothing.  Always answers
`{"status": "ok"}` (store failures are external to the model). -/
def seed (st : Store) : ApiResult SeedAck × Store :=
  if st.restaurant.length = 0 then
    let r1_id := st.nextId
    let r2_id := st.nextId + 1
    (ApiResult.ok { status := "ok" },
     { restaurant := st.restaurant ++ [
         { _id := r1_id, name := "Spice Route", cuisine := "Indian",
           image_url := some "https://images.unsplash.com/photo-1544025162-d76694265947",
           rating := 4.6, delivery_time_min := 30 },
         { _id := r2_id, name := "Pasta Palace", cuisine := "Italian",
           image_url := some "https://images.unsplash.com/photo-1521389508051-d7ffb5dc8bbf",
           rating := 4.4, delivery_time_min := 25 }],
       menuitem := st.menuitem ++ [
         { _id := st.nextId + 2, restaurant_id := oidToString r1_id,
           name := "Butter Chicken", description := some "Creamy tomato gravy",
           price := some 13.99, is_veg := false, spicy_level := 1,
           image_url := some "https://images.unsplash.com/photo-1604909052743-87e9f2fba5a2" },
         { _id := st.nextId + 3, restaurant_id := oidToString r1_id,
           name := "Paneer Tikka", description := some "Grilled cottage cheese",
           price := some 10.5, is_veg := true, spicy_level := 1,
           image_url := some "https://images.unsplash.com/photo-1601050690597-8df8f1864d84" },
         { _id := st.nextId + 4, restaurant_id := oidToString r2_id,
           name := "Margherita Pizza", description := some "Classic with basil",
           price := some 11.0, is_veg := true, spicy_level := 0,
           image_url := some "https://images.unsplash.com/photo-1548365328-9f547fb09530" },
         { _id := st.nextId + 5, restaurant_id := oidToString r2_id,
           name := "Pesto Pasta", description := some "Fresh basil pesto",
           price := some 12.75, is_veg := true, spicy_level := 0,
           image_url := some "https://images.unsplash.com/photo-1521389508051-d7ffb5dc8bbf" }],
       order := st.order,
       nextId := st.nextId + 6 })
  else (ApiResult.ok { status := "ok" }, st)

/-- `GET /restaurants` (src/main.py:72-78): up to 50 restaurant documents in
store order, serialized. -/
def list_restaurants (st : Store) : ApiResult (List Doc) :=
  ApiResult.ok ((st.restaurant.take 50).map (fun r => serialize_doc (restaurantToDoc r)))

/-- `GET /restaurants/{restaurant_id}/menu` (src/main.py:81-87): up to 200
menu item documents whose `restaurant_id` equals the (unvalidated) path
parameter exactly, serialized. -/
def get_menu (st : Store) (restaurant_id : String) : ApiResult (List Doc) :=
  ApiResult.ok
    (((st.menuitem.filter (fun d => d.restaurant_id == restaurant_id)).take 200).map
      (fun d => serialize_doc (menuitemToDoc d)))

/-- `POST /orders` (src/main.py:103-130).  Parse all requested identities
(failing there is caught by the handler's `except` and surfaced as a 500
with the message, before anything is inserted); fetch the matching menu
documents; build the identity-to-price map; fold over the request lines
accumulating the total and the per-line snapshots; insert the order document
and acknowledge. -/
def place_order (st : Store) (payload : PlaceOrderRequest) :
    ApiResult OrderResponse × Store :=
  match parse_menu_ids (payload.items.map (fun i => i.menuitem_id)) with
  | Except.error e => (ApiResult.error 500 e, st)
  | Except.ok oids =>
    let menu_docs := st.menuitem.filter (fun d => decide (d._id ∈ oids))
    let price_map := menu_docs.map (fun d => (oidToString d._id, d.price.getD 0))
    let r := payload.items.foldl (fun acc i =>
        (acc.1 + dictGet price_map i.menuitem_id 0 * (i.quantity : ℚ),
         acc.2 ++ [{ menuitem_id := i.menuitem_id, quantity := i.quantity,
                     price := dictGet price_map i.menuitem_id 0 }]))
      ((0 : ℚ), ([] : List OrderLine))
    let order_doc : OrderDoc := {
      _id := st.nextId, restaurant_id := payload.restaurant_id, items := r.2,
      customer_name := payload.customer_name, address := payload.address,
      phone := payload.phone, notes := payload.notes, status := "placed",
      total := round2 r.1 }
    (ApiResult.ok { id := oidToString st.nextId, total := round2 r.1, status := "placed" },
     { st with order := st.order ++ [order_doc], nextId := st.nextId + 1 })

/-- Descending comparison on store-native identities: `sort("_id", -1)`. -/
def idGe (a b : OrderDoc) : Prop := b._id ≤ a._id

instance : DecidableRel idGe := fun a b => Nat.decLe b._id a._id

instance : IsTotal OrderDoc idGe := ⟨fun a b => Nat.le_total b._id a._id⟩

instance : IsTrans OrderDoc idGe := ⟨fun _ _ _ hab hbc => le_trans hbc hab⟩

/-- The store's `cursor.limit(n)` semantics, per the collaborator's
documented contract: a limit of 0 is equivalent to no limit, and a negative
limit behaves as its absolute value. -/
def mongoLimit (n : Int) (l : List OrderDoc) : List OrderDoc :=
  if n = 0 then l else l.take n.natAbs

/-- `GET /orders` (src/main.py:133-139): all order documents sorted by
store-native identity descending, limited by the unvalidated `limit` query
parameter (default 20), serialized. -/
def list_orders (st : Store) (limit : Int := 20) : ApiResult (List Doc) :=
  ApiResult.ok
    ((mongoLimit limit (List.insertionSort idGe st.order)).map
      (fun d => serialize_doc (orderToDoc d)))

/-- Modelled from the spec: the store client handle `db` (imported from
database.py, which is not part of the sources here) as the diagnostic
endpoint observes it — possibly uninitialized (`None`), carrying an optional
database name, and with a `list_collection_names` call that either returns
the collection names or raises with a message. -/
structure DbHandle where
  name : Option String
  listCollections : Except String (List String)

/-- Modelled from the spec: the runtime environment of `GET /test` — the
optional store handle plus whether the `DATABASE_URL` / `DATABASE_NAME`
environment variables are set. -/
structure DiagnosticEnv where
  db : Option DbHandle
  urlSet : Bool
  nameSet : Bool

/-- Response of `GET /test`. -/
structure DiagnosticResponse where
  backend : String
  database : String
  database_url : String
  database_name : String
  connection_status : String
  collections : List String
deriving DecidableEq

/-- `GET /test` (src/main.py:142-172): build the diagnostic object.  Every
failure path assigns a field value; the `database_url` / `database_name`
fields are unconditionally overwritten at the end from the environment
variables (src/main.py:170-171). -/
def test_database (env : DiagnosticEnv) : ApiResult DiagnosticResponse :=
  ApiResult.ok {
    backend := "✅ Running",
    database :=
      match env.db with
      | none => "⚠️  Available but not initialized"
      | some h =>
        match h.listCollections with
        | Except.ok _ => "✅ Connected & Working"
        | Except.error e => "⚠️  Connected but Error: " ++ e.take 50,
    database_url := if env.urlSet then "✅ Set" else "❌ Not Set",
    database_name := if env.nameSet then "✅ Set" else "❌ Not Set",
    connection_status :=
      match env.db with
      | none => "Not Connected"
      | some _ => "Connected",
    collections :=
      match env.db with
      | none => []
      | some h =>
        match h.listCollections with
        | Except.ok cs => cs.take 10
        | Except.error _ => [] }

/-- The snapshot price a request line receives: the price of the last stored
menu document whose rendered identity equals the line's identity, defaulting
to 0 when there is none. -/
def snapshotPrice (menu : List MenuitemDoc) (mid : String) : ℚ :=
  dictGet (menu.map (fun d => (oidToString d._id, d.price.getD 0))) mid 0

/-- The per-line snapshot `place_order` persists for a request line. -/
def snapshotLine (menu : List MenuitemDoc) (i : CartItem) : OrderLine :=
  { menuitem_id := i.menuitem_id, quantity := i.quantity,
    price := snapshotPrice menu i.menuitem_id }

/-- The order total before rounding: the sum over the request lines of
snapshot price times quantity. -/
def specTotal (menu : List MenuitemDoc) (items : List CartItem) : ℚ :=
  (items.map (fun i => snapshotPrice menu i.menuitem_id * (i.quantity : ℚ))).sum

/-- A serialized document that exposes the store identity as a plain string
field `id` and carries no raw `_id` field. -/
def exposesStringId (d : Doc) : Prop :=
  (∃ s, ("id", Value.vstr s) ∈ d) ∧ ∀ kv ∈ d, kv.1 ≠ "_id"

/-! ### Helper lemmas -/

lemma parseOid_oidToString (n : Nat) : parseOid (oidToString n) = some n := by
  have hall : (String.mk (List.replicate n 'x')).data.all (fun c => c == 'x') = true := by
    simp [List.all_eq_true, List.eq_of_mem_replicate]
  simp [parseOid, oidToString, hall]

lemma parse_menu_ids_ok {l : List String} (h : ∀ s ∈ l, (parseOid s).isSome) :
    ∃ ns, parse_menu_ids l = Except.ok ns ∧
      ∀ s ∈ l, ∀ k, parseOid s = some k → k ∈ ns := by
  induction l with
  | nil => exact ⟨[], rfl, by simp⟩
  | cons s rest ih =>
    obtain ⟨n, hn⟩ := Option.isSome_iff_exists.mp (h s (List.mem_cons_self s rest))
    obtain ⟨ns, hns, hmem⟩ := ih (fun x hx => h x (List.mem_cons_of_mem s hx))
    refine ⟨n :: ns, by simp [parse_menu_ids, hn, hns], ?_⟩
    intro x hx k hk
    rcases List.mem_cons.mp hx with rfl | hx2
    · rw [hn] at hk
      rw [← Option.some.inj hk]
      exact List.mem_cons_self _ _
    · exact List.mem_cons_of_mem _ (hmem x hx2 k hk)

lemma parse_menu_ids_fails {l : List String} (h : ∃ s ∈ l, parseOid s = none) :
    ∃ e, parse_menu_ids l = Except.error e := by
  induction l with
  | nil => simp at h
  | cons s rest ih =>
    obtain ⟨x, hx, hxnone⟩ := h
    cases hs : parseOid s with
    | none => exact ⟨s ++ " is not a valid ObjectId", by simp [parse_menu_ids, hs]⟩
    | some n =>
      rcases List.mem_cons.mp hx with rfl | hx2
      · rw [hs] at hxnone; cases hxnone
      · obtain ⟨e, he⟩ := ih ⟨x, hx2, hxnone⟩
        exact ⟨e, by simp [parse_menu_ids, hs, he]⟩

lemma dictFind_cons_congr {e : String × ℚ} {m1 m2 : List (String × ℚ)} {k : String}
    (h : dictFind m1 k = dictFind m2 k) :
    dictFind (e :: m1) k = dictFind (e :: m2) k := by
  simp only [dictFind, h]

lemma dictFind_eq_none {m : List (String × ℚ)} {k : String}
    (h : ∀ e ∈ m, e.1 ≠ k) : dictFind m k = none := by
  induction m with
  | nil => rfl
  | cons e rest ih =>
    have hrest := ih (fun x hx => h x (List.mem_cons_of_mem e hx))
    simp only [dictFind, hrest]
    simp [h e (List.mem_cons_self e rest)]

lemma dictFind_filter (menu : List MenuitemDoc) (ns : List Nat) (mid : String)
    (hcover : ∀ k, parseOid mid = some k → k ∈ ns) :
    dictFind ((menu.filter (fun d => decide (d._id ∈ ns))).map
        (fun d => (oidToString d._id, d.price.getD 0))) mid
      = dictFind (menu.map (fun d => (oidToString d._id, d.price.getD 0))) mid := by
  induction menu with
  | nil => rfl
  | cons d rest ih =>
    by_cases hd : d._id ∈ ns
    · rw [List.filter_cons_of_pos (by simpa using hd)]
      simp only [List.map_cons]
      exact dictFind_cons_congr ih
    · rw [List.filter_cons_of_neg (by simpa using hd)]
      rw [ih]
      have hkey : oidToString d._id ≠ mid := by
        intro hkm
        exact hd (hcover d._id (by rw [← hkm, parseOid_oidToString]))
      simp only [List.map_cons, dictFind]
      cases hval : dictFind (List.map (fun d => (oidToString d._id, d.price.getD 0)) rest) mid with
      | some v => rfl
      | none => simp [hkey]

lemma order_foldl (pm : List (String × ℚ)) (l : List CartItem) (t : ℚ) (acc : List OrderLine) :
    l.foldl (fun acc i =>
        (acc.1 + dictGet pm i.menuitem_id 0 * (i.quantity : ℚ),
         acc.2 ++ [{ menuitem_id := i.menuitem_id, quantity := i.quantity,
                     price := dictGet pm i.menuitem_id 0 }])) (t, acc)
      = (t + (l.map (fun i => dictGet pm i.menuitem_id 0 * (i.quantity : ℚ))).sum,
         acc ++ l.map (fun i => ({ menuitem_id := i.menuitem_id, quantity := i.quantity,
                                   price := dictGet pm i.menuitem_id 0 } : OrderLine))) := by
  induction l generalizing t acc with
  | nil => simp
  | cons i rest ih =>
    simp only [List.foldl_cons, ih, List.map_cons, List.sum_cons]
    refine Prod.ext ?_ ?_
    · simp [add_assoc]
    · simp

lemma place_order_spec (st : Store) (payload : PlaceOrderRequest)
    (h : ∀ i ∈ payload.items, (parseOid i.menuitem_id).isSome) :
    place_order st payload =
      (ApiResult.ok { id := oidToString st.nextId,
                      total := round2 (specTotal st.menuitem payload.items),
                      status := "placed" },
       { st with
         order := st.order ++ [{
           _id := st.nextId, restaurant_id := payload.restaurant_id,
           items := payload.items.map (snapshotLine st.menuitem),
           customer_name := payload.customer_name, address := payload.address,
           phone := payload.phone, notes := payload.notes, status := "placed",
           total := round2 (specTotal st.menuitem payload.items) }],
         nextId := st.nextId + 1 }) := by
  obtain ⟨ns, hns, hmem⟩ := parse_menu_ids_ok
    (l := payload.items.map (fun i => i.menuitem_id)) (by
      intro s hs
      obtain ⟨i, hi, rfl⟩ := List.mem_map.mp hs
      exact h i hi)
  have hline : ∀ i ∈ payload.items,
      dictGet ((st.menuitem.filter (fun d => decide (d._id ∈ ns))).map
        (fun d => (oidToString d._id, d.price.getD 0))) i.menuitem_id 0
      = snapshotPrice st.menuitem i.menuitem_id := by
    intro i hi
    simp only [dictGet, snapshotPrice]
    rw [dictFind_filter st.menuitem ns i.menuitem_id
      (fun k hk => hmem i.menuitem_id (List.mem_map_of_mem _ hi) k hk)]
  have hmapitems : payload.items.map (fun i =>
        ({ menuitem_id := i.menuitem_id, quantity := i.quantity,
           price := dictGet ((st.menuitem.filter (fun d => decide (d._id ∈ ns))).map
             (fun d => (oidToString d._id, d.price.getD 0))) i.menuitem_id 0 } : OrderLine))
      = payload.items.map (snapshotLine st.menuitem) :=
    List.map_congr_left (fun i hi => by unfold snapshotLine; rw [hline i hi])
  have hmapsum : payload.items.map (fun i =>
        dictGet ((st.menuitem.filter (fun d => decide (d._id ∈ ns))).map
          (fun d => (oidToString d._id, d.price.getD 0))) i.menuitem_id 0 * (i.quantity : ℚ))
      = payload.items.map (fun i => snapshotPrice st.menuitem i.menuitem_id * (i.quantity : ℚ)) :=
    List.map_congr_left (fun i hi => by rw [hline i hi])
  simp only [place_order, hns]
  rw [order_foldl]
  simp only [hmapitems, hmapsum, specTotal]
  simp

lemma serialize_doc_exposes (d : Doc) (n : Nat)
    (hd : List.lookup "_id" d = some (Value.oid n)) :
    exposesStringId (serialize_doc d) := by
  unfold serialize_doc
  rw [hd]
  constructor
  · exact ⟨oidToString n, List.mem_append_right _ (List.mem_singleton.mpr rfl)⟩
  · intro kv hkv
    rcases List.mem_append.mp hkv with h1 | h2
    · intro hk
      have hfilt := (List.mem_filter.mp h1).2
      simp [hk] at hfilt
    · rw [List.mem_singleton.mp h2]
      simp

lemma lookup_restaurantToDoc (r : RestaurantDoc) :
    List.lookup "_id" (restaurantToDoc r) = some (Value.oid r._id) := rfl

lemma lookup_menuitemToDoc (m : MenuitemDoc) :
    List.lookup "_id" (menuitemToDoc m) = some (Value.oid m._id) := rfl

lemma lookup_orderToDoc (o : OrderDoc) :
    List.lookup "_id" (orderToDoc o) = some (Value.oid o._id) := rfl

lemma sorted_mongoLimit (N : Int) (l : List OrderDoc) :
    List.Sorted idGe (mongoLimit N (List.insertionSort idGe l)) := by
  unfold mongoLimit
  split
  · exact List.sorted_insertionSort idGe l
  · exact List.Pairwise.sublist (List.take_sublist _ _) (List.sorted_insertionSort idGe l)

lemma mongoLimit_length_le {N : Int} (hN : N ≠ 0) (l : List OrderDoc) :
    (mongoLimit N l).length ≤ N.natAbs := by
  unfold mongoLimit
  rw [if_neg hN]
  simp

lemma mongoLimit_zero (l : List OrderDoc) : mongoLimit 0 l = l := by
  simp [mongoLimit]

lemma oidToString_inj {m n : Nat} (h : oidToString m = oidToString n) : m = n := by
  have hm := parseOid_oidToString m
  rw [h, parseOid_oidToString] at hm
  exact (Option.some.inj hm).symm

lemma oidToString_injEq (m n : Nat) : oidToString m = oidToString n ↔ m = n :=
  ⟨oidToString_inj, fun h => h ▸ rfl⟩

lemma round2_zero : round2 0 = 0 := by norm_num [round2]

/-! ### Concrete fixtures used by witnesses and counter-evaluations -/

/-- Fixture: menu item A with price 10.0. -/
def menuA : MenuitemDoc :=
  { _id := 1, restaurant_id := "r", name := "A", description := none,
    price := some 10, is_veg := false, spicy_level := 0, image_url := none }

/-- Fixture: menu item B with price 5.0. -/
def menuB : MenuitemDoc :=
  { _id := 2, restaurant_id := "r", name := "B", description := none,
    price := some 5, is_veg := true, spicy_level := 0, image_url := none }

/-- Fixture store holding menu items A and B. -/
def wStore : Store :=
  { restaurant := [], menuitem := [menuA, menuB], order := [], nextId := 3 }

/-- Fixture request: (A, qty 2), (B, qty 1). -/
def wReq : PlaceOrderRequest :=
  { restaurant_id := "r", items := [⟨oidToString 1, 2⟩, ⟨oidToString 2, 1⟩],
    customer_name := "c", address := "a", phone := "p", notes := none }

/-- Fixture request with a malformed menu item identity. -/
def badReq : PlaceOrderRequest :=
  { restaurant_id := "r", items := [⟨"zzz", 1⟩], customer_name := "c",
    address := "a", phone := "p", notes := none }

/-- Fixture request referencing a well-formed identity matching no stored
menu item. -/
def unknownReq : PlaceOrderRequest :=
  { restaurant_id := "r", items := [⟨oidToString 9, 3⟩], customer_name := "c",
    address := "a", phone := "p", notes := none }

/-- Fixture request with a negative quantity on item A. -/
def negReq : PlaceOrderRequest :=
  { restaurant_id := "r", items := [⟨oidToString 1, -1⟩], customer_name := "c",
    address := "a", phone := "p", notes := none }

/-- Fixture: a completely empty store. -/
def emptyStore : Store := { restaurant := [], menuitem := [], order := [], nextId := 0 }

/-- Fixture: one persisted order. -/
def soloOrder : OrderDoc :=
  { _id := 5, restaurant_id := "r", items := [], customer_name := "c",
    address := "a", phone := "p", notes := none, status := "placed", total := 0 }

/-- Fixture store holding the one order. -/
def soloOrderStore : Store :=
  { restaurant := [], menuitem := [], order := [soloOrder], nextId := 6 }

/-- Fixture diagnostic environment whose store handle errors on listing
collections. -/
def failingEnv : DiagnosticEnv :=
  { db := some { name := none, listCollections := Except.error "connection refused" },
    urlSet := false, nameSet := false }

/-! ### Claim theorems -/

/-- C1: for every order-placement request whose item identities are
well-formed, the computed total equals the sum over the request's item lines
of snapshot price times quantity, rounded to 2 decimal places; a request
with an empty item sequence yields total 0 and a persisted order with an
empty items sequence (it is not rejected). -/
theorem place_order_total_correct (st : Store) (payload : PlaceOrderRequest)
    (h : ∀ i ∈ payload.items, (parseOid i.menuitem_id).isSome) :
    ∃ resp st2, place_order st payload = (ApiResult.ok resp, st2) ∧
      resp.total = round2 ((payload.items.map (fun i =>
        snapshotPrice st.menuitem i.menuitem_id * (i.quantity : ℚ))).sum) ∧
      (payload.items = [] →
        resp.total = 0 ∧ ∃ od, st2.order = st.order ++ [od] ∧ od.items = []) := by
  rw [place_order_spec st payload h]
  refine ⟨_, _, rfl, rfl, fun hemp => ⟨?_, ⟨_, rfl, by simp [hemp]⟩⟩⟩
  simp [hemp, specTotal, round2_zero]

/-- Witness for C1 at the claim's concrete request: items
(A, qty 2, price 10.0) and (B, qty 1, price 5.0) give total 25.0. -/
theorem place_order_total_correct_witness :
    ∃ resp st2, place_order wStore wReq = (ApiResult.ok resp, st2) ∧
      resp.total = round2 ((wReq.items.map (fun i =>
        snapshotPrice wStore.menuitem i.menuitem_id * (i.quantity : ℚ))).sum) ∧
      resp.total = 25 := by
  obtain ⟨resp, st2, h1, h2, _⟩ := place_order_total_correct wStore wReq (by decide)
  refine ⟨resp, st2, h1, h2, ?_⟩
  rw [h2]
  simp [wReq, wStore, menuA, menuB, snapshotPrice, dictGet, dictFind, oidToString_injEq]
  norm_num [round2]

/-- C3: under well-formed identities, every request line whose identity
matches no stored menu item snapshots price 0.0 (in both the persisted line
and, via the total formula, the running total), and the request succeeds. -/
theorem place_order_unknown_id_price_zero (st : Store) (payload : PlaceOrderRequest)
    (h : ∀ i ∈ payload.items, (parseOid i.menuitem_id).isSome) :
    ∃ resp st2 od, place_order st payload = (ApiResult.ok resp, st2) ∧
      st2.order = st.order ++ [od] ∧
      od.items = payload.items.map (snapshotLine st.menuitem) ∧
      resp.total = round2 (specTotal st.menuitem payload.items) ∧
      ∀ i ∈ payload.items, (∀ d ∈ st.menuitem, oidToString d._id ≠ i.menuitem_id) →
        snapshotLine st.menuitem i = ⟨i.menuitem_id, i.quantity, 0⟩ := by
  rw [place_order_spec st payload h]
  refine ⟨_, _, _, rfl, rfl, rfl, rfl, ?_⟩
  intro i _ hno
  have hnone : dictFind (st.menuitem.map
      (fun d => (oidToString d._id, d.price.getD 0))) i.menuitem_id = none :=
    dictFind_eq_none (by
      intro e he
      obtain ⟨d, hd, rfl⟩ := List.mem_map.mp he
      exact hno d hd)
  simp [snapshotLine, snapshotPrice, dictGet, hnone]

/-- Witness for C3: a request line naming the absent identity `oidToString 9`
is snapshotted with price 0 and the request succeeds. -/
theorem place_order_unknown_id_price_zero_witness :
    ∃ resp st2 od, place_order wStore unknownReq = (ApiResult.ok resp, st2) ∧
      st2.order = wStore.order ++ [od] ∧
      od.items = unknownReq.items.map (snapshotLine wStore.menuitem) ∧
      resp.total = round2 (specTotal wStore.menuitem unknownReq.items) ∧
      snapshotLine wStore.menuitem ⟨oidToString 9, 3⟩ = ⟨oidToString 9, 3, 0⟩ := by
  obtain ⟨resp, st2, od, h1, h2, h3, h4, h5⟩ :=
    place_order_unknown_id_price_zero wStore unknownReq (by decide)
  exact ⟨resp, st2, od, h1, h2, h3, h4,
    h5 ⟨oidToString 9, 3⟩ (by simp [unknownReq]) (by decide)⟩

/-- C5: a request containing a malformed menu item identity is answered with
the single generic 500 response carrying the failure text, and the store —
in particular its order collection — is unchanged. -/
theorem place_order_malformed_id_internal_error (st : Store) (payload : PlaceOrderRequest)
    (h : ∃ i ∈ payload.items, parseOid i.menuitem_id = none) :
    ∃ msg, place_order st payload = (ApiResult.error 500 msg, st) := by
  obtain ⟨e, he⟩ := parse_menu_ids_fails (l := payload.items.map (fun i => i.menuitem_id))
    (by obtain ⟨i, hi, hni⟩ := h; exact ⟨i.menuitem_id, List.mem_map_of_mem _ hi, hni⟩)
  exact ⟨e, by simp [place_order, he]⟩

/-- Witness for C5: the malformed identity "zzz" yields a 500 and leaves the
store untouched. -/
theorem place_order_malformed_id_internal_error_witness :
    ∃ msg, place_order wStore badReq = (ApiResult.error 500 msg, wStore) :=
  place_order_malformed_id_internal_error wStore badReq
    ⟨⟨"zzz", 1⟩, by simp [badReq], by decide⟩

/-- C10: for every successful placement the response total and status equal
the persisted order document's total and status: both are "placed" and both
are the rounded computed total. -/
theorem place_order_response_matches_persisted (st : Store) (payload : PlaceOrderRequest)
    (h : ∀ i ∈ payload.items, (parseOid i.menuitem_id).isSome) :
    ∃ resp st2 od, place_order st payload = (ApiResult.ok resp, st2) ∧
      st2.order = st.order ++ [od] ∧
      od.total = resp.total ∧ od.status = resp.status ∧
      resp.status = "placed" ∧
      resp.total = round2 (specTotal st.menuitem payload.items) := by
  rw [place_order_spec st payload h]
  exact ⟨_, _, _, rfl, rfl, rfl, rfl, rfl, rfl⟩

/-- Witness for C10 at the concrete fixture request. -/
theorem place_order_response_matches_persisted_witness :
    ∃ resp st2 od, place_order wStore wReq = (ApiResult.ok resp, st2) ∧
      st2.order = wStore.order ++ [od] ∧
      od.total = resp.total ∧ od.status = resp.status ∧
      resp.status = "placed" ∧
      resp.total = round2 (specTotal wStore.menuitem wReq.items) :=
  place_order_response_matches_persisted wStore wReq (by decide)

/-- C2: counter-evaluation: a request with quantity -1 on a 10.0-priced item
is accepted and persists an order whose total is -10, which is negative —
contradicting the `ge=0` bound the Order schema declares for `total`
(src/schemas.py:36). -/
theorem place_order_can_persist_negative_total :
    ∃ resp st2 od, place_order wStore negReq = (ApiResult.ok resp, st2) ∧
      st2.order = wStore.order ++ [od] ∧ od.total = -10 ∧ od.total < 0 := by
  rw [place_order_spec wStore negReq (by decide)]
  have hval : round2 (specTotal wStore.menuitem negReq.items) = -10 := by
    simp [negReq, wStore, menuA, menuB, specTotal, snapshotPrice, dictGet, dictFind,
      oidToString_injEq]
    norm_num [round2]
  exact ⟨_, _, _, rfl, rfl, hval, by rw [hval]; norm_num⟩

/-- C4: the seeding operation always acknowledges with status "ok"; when the
restaurant collection is non-empty it inserts nothing; when it is empty it
inserts exactly two restaurants and four menu items, two per restaurant,
each referencing the string form of its restaurant's fresh identity; and
seeding twice from an empty store leaves exactly 2 restaurants and 4 menu
items. -/
theorem seed_contract (st : Store) :
    (seed st).1 = ApiResult.ok { status := "ok" } ∧
    (st.restaurant ≠ [] → (seed st).2 = st) ∧
    (st.restaurant = [] →
      ∃ r1 r2 m1 m2 m3 m4,
        (seed st).2.restaurant = [r1, r2] ∧
        (seed st).2.menuitem = st.menuitem ++ [m1, m2, m3, m4] ∧
        m1.restaurant_id = oidToString r1._id ∧
        m2.restaurant_id = oidToString r1._id ∧
        m3.restaurant_id = oidToString r2._id ∧
        m4.restaurant_id = oidToString r2._id) ∧
    (st.restaurant = [] → st.menuitem = [] →
      seed ((seed st).2) = (ApiResult.ok { status := "ok" }, (seed st).2) ∧
      ((seed st).2).restaurant.length = 2 ∧
      ((seed st).2).menuitem.length = 4) := by
  obtain ⟨rs, ms, os, k⟩ := st
  by_cases hr : rs = []
  · subst hr
    refine ⟨rfl, fun hne => absurd rfl hne,
      fun _ => ⟨_, _, _, _, _, _, rfl, rfl, rfl, rfl, rfl, rfl⟩,
      fun _ hm => ?_⟩
    subst hm
    exact ⟨rfl, rfl, rfl⟩
  · unfold seed
    rw [if_neg (by simpa [List.length_eq_zero] using hr)]
    exact ⟨rfl, fun _ => rfl, fun he => absurd he hr, fun he _ => absurd he hr⟩

/-- Witness for C4 at the empty store. -/
theorem seed_contract_witness :
    (seed emptyStore).1 = ApiResult.ok { status := "ok" } ∧
    seed ((seed emptyStore).2) = (ApiResult.ok { status := "ok" }, (seed emptyStore).2) ∧
    ((seed emptyStore).2).restaurant.length = 2 ∧
    ((seed emptyStore).2).menuitem.length = 4 := by
  obtain ⟨h1, _, _, h4⟩ := seed_contract emptyStore
  obtain ⟨h5, h6, h7⟩ := h4 rfl rfl
  exact ⟨h1, h5, h6, h7⟩

/-- C6: menu retrieval returns, for any path-parameter string, exactly the
stored menu items whose `restaurant_id` equals it (string equality, at most
200), and an identity matched by no menu item yields an empty array, never
an error. -/
theorem get_menu_string_filter_no_error (st : Store) (rid : String) :
    ∃ l, get_menu st rid = ApiResult.ok l ∧
      l = ((st.menuitem.filter (fun d => d.restaurant_id == rid)).take 200).map
        (fun d => serialize_doc (menuitemToDoc d)) ∧
      l.length ≤ 200 ∧
      ((∀ d ∈ st.menuitem, d.restaurant_id ≠ rid) → l = []) := by
  refine ⟨_, rfl, rfl, ?_, ?_⟩
  · simp only [List.length_map]
    simp
  · intro hno
    have hfil : st.menuitem.filter (fun d => d.restaurant_id == rid) = [] :=
      List.filter_eq_nil_iff.mpr (fun d hd => by simp [hno d hd])
    simp [hfil]

/-- Witness for C6: an unknown restaurant identity yields an empty array. -/
theorem get_menu_string_filter_no_error_witness :
    ∃ l, get_menu wStore "unknown-restaurant" = ApiResult.ok l ∧ l = [] := by
  obtain ⟨l, h1, _, _, h4⟩ := get_menu_string_filter_no_error wStore "unknown-restaurant"
  exact ⟨l, h1, h4 (by decide)⟩

/-- C7 counterexample: with one persisted order, `limit = 0` makes the store
return every record (its limit-0-means-no-limit semantics), so the listing
returns 1 record — not at most 0 as the claim, quantified over every limit
value, requires. -/
theorem list_orders_limit_zero_returns_all :
    ∃ l, list_orders soloOrderStore 0 = ApiResult.ok l ∧ l.length = 1 ∧ ¬ l.length ≤ 0 :=
  ⟨[serialize_doc (orderToDoc soloOrder)], rfl, rfl, by decide⟩

/-- C7 (amended): order listing returns the order documents sorted by
store-native identity descending with no filtering; for every nonzero limit
N at most |N| records are returned, while N = 0 imposes no limit. -/
theorem list_orders_amended_contract (st : Store) (N : Int) :
    ∃ ords : List OrderDoc,
      list_orders st N = ApiResult.ok (ords.map (fun d => serialize_doc (orderToDoc d))) ∧
      ords = mongoLimit N (List.insertionSort idGe st.order) ∧
      List.Sorted idGe ords ∧
      (N ≠ 0 → ords.length ≤ N.natAbs) ∧
      (N = 0 → ords.length = st.order.length) := by
  refine ⟨mongoLimit N (List.insertionSort idGe st.order), rfl, rfl,
    sorted_mongoLimit N st.order, fun hN => mongoLimit_length_le hN _, fun hN => ?_⟩
  subst hN
  rw [mongoLimit_zero]
  exact (List.perm_insertionSort idGe st.order).length_eq

/-- Witness for C7 (amended): `limit = 3` returns at most 3 records. -/
theorem list_orders_amended_contract_witness :
    ∃ ords : List OrderDoc,
      list_orders soloOrderStore 3
        = ApiResult.ok (ords.map (fun d => serialize_doc (orderToDoc d))) ∧
      ords.length ≤ 3 := by
  obtain ⟨ords, h1, _, _, h4, _⟩ := list_orders_amended_contract soloOrderStore 3
  exact ⟨ords, h1, by simpa using h4 (by decide)⟩

/-- C8: every document returned by a listing endpoint (restaurants, menu,
orders) carries its store identity as a plain string field `id` and carries
no raw `_id` field. -/
theorem listing_endpoints_expose_string_id (st : Store) (rid : String) (N : Int) :
    (∀ l, list_restaurants st = ApiResult.ok l → ∀ d ∈ l, exposesStringId d) ∧
    (∀ l, get_menu st rid = ApiResult.ok l → ∀ d ∈ l, exposesStringId d) ∧
    (∀ l, list_orders st N = ApiResult.ok l → ∀ d ∈ l, exposesStringId d) := by
  refine ⟨?_, ?_, ?_⟩
  · intro l hl d hd
    simp only [list_restaurants] at hl
    injection hl with hl
    subst hl
    obtain ⟨r, _, rfl⟩ := List.mem_map.mp hd
    exact serialize_doc_exposes _ r._id (lookup_restaurantToDoc r)
  · intro l hl d hd
    simp only [get_menu] at hl
    injection hl with hl
    subst hl
    obtain ⟨m, _, rfl⟩ := List.mem_map.mp hd
    exact serialize_doc_exposes _ m._id (lookup_menuitemToDoc m)
  · intro l hl d hd
    simp only [list_orders] at hl
    injection hl with hl
    subst hl
    obtain ⟨o, _, rfl⟩ := List.mem_map.mp hd
    exact serialize_doc_exposes _ o._id (lookup_orderToDoc o)

/-- Witness for C8: the serialized form of the fixture order exposes a
string `id` and no `_id`. -/
theorem listing_endpoints_expose_string_id_witness :
    exposesStringId (serialize_doc (orderToDoc soloOrder)) :=
  (listing_endpoints_expose_string_id soloOrderStore "r" 20).2.2
    [serialize_doc (orderToDoc soloOrder)] rfl _ (List.mem_singleton.mpr rfl)

/-- C9: the diagnostic endpoint never fails: for every environment —
including an absent handle or one whose collection listing errors — it
returns a diagnostic object, with connectivity problems reported as field
values (the error text truncated to 50 characters). -/
theorem test_database_never_errors (env : DiagnosticEnv) :
    ∃ resp, test_database env = ApiResult.ok resp ∧
      resp.backend = "✅ Running" ∧
      ∀ h e, env.db = some h → h.listCollections = Except.error e →
        resp.database = "⚠️  Connected but Error: " ++ e.take 50 := by
  refine ⟨_, rfl, rfl, ?_⟩
  intro h e hdb hlist
  simp [test_database, hdb, hlist]

/-- Witness for C9: a handle erroring on collection listing still yields an
ok diagnostic response with the error text embedded. -/
theorem test_database_never_errors_witness :
    ∃ resp, test_database failingEnv = ApiResult.ok resp ∧
      resp.backend = "✅ Running" ∧
      resp.database = "⚠️  Connected but Error: " ++ ("connection refused").take 50 := by
  obtain ⟨resp, h1, h2, h3⟩ := test_database_never_errors failingEnv
  exact ⟨resp, h1, h2, h3 _ _ rfl rfl⟩

end FoodApi
